import Mathlib

/-!
Verification development for the CSV-to-SQLite ingestion utility
(`ingest_csv_to_sqlite.py`).  The definitions below are a shallow embedding
of `CSVToSQLiteIngester`: type inference (`detect_sqlite_type`), DDL
generation (`create_table_schema`) and the row-loading pipeline
(`ingest_csv`).  The SQLite store itself is external to the repository; it
is modelled as a table map together with an abstract per-row constraint
verdict, and store-level faults are injected at the statement boundaries
where the Python code can receive a `sqlite3.Error` outside the per-row
`try`.
-/

/-- The pandas dtype categories distinguished by `detect_sqlite_type`
(lines 59-90).  The `pd.api.types.is_*_dtype` predicates are mutually
exclusive on a concrete series dtype, which this enumeration makes
structural.  `tOther` covers every remaining dtype (the final `else`). -/
inductive DtypeKind where
  | tInt
  | tFloat
  | tBool
  | tDatetime
  | tObject
  | tOther
  deriving DecidableEq

/-- A scalar held in a pandas cell: an integer, a float (modelled as a
rational) or a string.  Object columns produced by `pd.read_csv` hold
strings; numeric columns hold numbers. -/
inductive PyVal where
  | i (n : ℤ)
  | f (q : ℚ)
  | s (str : String)
  deriving DecidableEq

/-- A cell of a pandas series: either absent (`NaN`, dropped by `dropna`
and detected by `pd.isna`) or a present scalar. -/
inductive Cellv where
  | na
  | val (v : PyVal)
  deriving DecidableEq

/-- One dataframe column: its (stripped) name, its pandas dtype category
and its cells in row order. -/
structure Column where
  name : String
  dtype : DtypeKind
  cells : List Cellv

/-- `series.dropna()`: the present scalars of a series, in order. -/
def dropna (cells : List Cellv) : List PyVal :=
  cells.filterMap (fun c =>
    match c with
    | Cellv.na => none
    | Cellv.val v => some v)

/-- Longest digit run at the head of a character list, with the rest. -/
def spanDigits : List Char → List Char × List Char
  | [] => ([], [])
  | c :: cs =>
    if c.isDigit then
      let p := spanDigits cs
      (c :: p.1, p.2)
    else ([], c :: cs)

/-- Numeric value of a digit run. -/
def digitsToNat (ds : List Char) : ℕ :=
  ds.foldl (fun a c => a * 10 + (c.toNat - 48)) 0

/-- After the mantissa: either nothing is left or a well-formed exponent
(`e`/`E`, optional sign, one or more digits) consumes the rest. -/
def numTail : List Char → Bool
  | [] => true
  | c :: cs =>
    if c = 'e' ∨ c = 'E' then
      let cs2 :=
        match cs with
        | [] => []
        | s :: r => if s = '+' ∨ s = '-' then r else s :: r
      let p := spanDigits cs2
      !p.1.isEmpty && p.2.isEmpty
    else false

/-- Decimal mantissa: digits, optionally with a decimal point; at least one
digit must appear on one side of the point. -/
def numMantissa (cs : List Char) : Bool :=
  let p1 := spanDigits cs
  match p1.2 with
  | '.' :: r2 =>
    let p2 := spanDigits r2
    (!p1.1.isEmpty || !p2.1.isEmpty) && numTail p2.2
  | r => !p1.1.isEmpty && numTail r

/-- Model of `pd.to_numeric` applied to a single string: surrounding
spaces, an optional sign and a decimal literal with optional fraction and
exponent succeed; anything else raises. -/
def parsesAsNumber (str : String) : Bool :=
  let cs := str.toList.dropWhile (fun c => c = ' ')
  let cs := (cs.reverse.dropWhile (fun c => c = ' ')).reverse
  let cs :=
    match cs with
    | [] => []
    | c :: r => if c = '+' ∨ c = '-' then r else c :: r
  numMantissa cs

/-- Gregorian leap-year rule, as validated by `datetime`. -/
def isLeap (y : ℕ) : Bool :=
  (y % 4 == 0 && y % 100 != 0) || y % 400 == 0

/-- Days in a month, as validated by `datetime`. -/
def daysInMonth (y m : ℕ) : ℕ :=
  if m = 2 then (if isLeap y then 29 else 28)
  else if m = 4 ∨ m = 6 ∨ m = 9 ∨ m = 11 then 30
  else 31

/-- A valid calendar date in `datetime`'s range (`MINYEAR = 1`). -/
def validYmd (y m d : ℕ) : Bool :=
  decide (1 ≤ y) && decide (1 ≤ m) && decide (m ≤ 12) &&
    decide (1 ≤ d) && decide (d ≤ daysInMonth y m)

/-- Match the `%Y-%m-%d` part of a `strptime` format at the head of the
input: `%Y` is exactly four digits, `%m` and `%d` are one or two digits
(zero padding optional).  Returns the numeric fields and the rest. -/
def matchDatePart (cs : List Char) : Option (ℕ × ℕ × ℕ × List Char) :=
  let p1 := spanDigits cs
  if p1.1.length ≠ 4 then none else
  match p1.2 with
  | '-' :: r2 =>
    let p2 := spanDigits r2
    if p2.1.length = 0 ∨ p2.1.length > 2 then none else
    match p2.2 with
    | '-' :: r4 =>
      let p3 := spanDigits r4
      if p3.1.length = 0 ∨ p3.1.length > 2 then none else
      some (digitsToNat p1.1, digitsToNat p2.1, digitsToNat p3.1, p3.2)
    | _ => none
  | _ => none

/-- `datetime.strptime(s, "%Y-%m-%d")` succeeds: the whole string is a
four-digit year, month and day, forming a valid calendar date. -/
def strptimeYmd (str : String) : Bool :=
  match matchDatePart str.toList with
  | some (y, m, d, rest) => rest.isEmpty && validYmd y m d
  | none => false

/-- `datetime.strptime(s, "%Y-%m-%d %H:%M:%S")` succeeds: the date part as
in `strptimeYmd`, one or more whitespace characters (a literal blank in a
`strptime` format matches a whitespace run), then hour, minute and second
fields of one or two digits with `%H ≤ 23`, `%M ≤ 59`, `%S ≤ 61`. -/
def strptimeYmdHMS (str : String) : Bool :=
  match matchDatePart str.toList with
  | some (y, m, d, rest) =>
    let ws := rest.takeWhile Char.isWhitespace
    let r5 := rest.dropWhile Char.isWhitespace
    if ws.isEmpty then false else
    let pH := spanDigits r5
    if pH.1.length = 0 ∨ pH.1.length > 2 then false else
    match pH.2 with
    | ':' :: r6 =>
      let pM := spanDigits r6
      if pM.1.length = 0 ∨ pM.1.length > 2 then false else
      match pM.2 with
      | ':' :: r7 =>
        let pS := spanDigits r7
        if pS.1.length = 0 ∨ pS.1.length > 2 then false else
        pS.2.isEmpty && validYmd y m d &&
          decide (digitsToNat pH.1 ≤ 23) && decide (digitsToNat pM.1 ≤ 59) &&
          decide (digitsToNat pS.1 ≤ 61)
      | _ => false
    | _ => false
  | none => false

/-- `pd.to_numeric` on one cell value: numbers convert; a string converts
exactly when it is a numeric literal. -/
def pyToNumericOk : PyVal → Bool
  | PyVal.i _ => true
  | PyVal.f _ => true
  | PyVal.s str => parsesAsNumber str

/-- `str(v)`.  In `detect_sqlite_type` this is only applied to a value on
which `pd.to_numeric` raised, hence only to strings (numbers always
convert); the numeric arms are therefore unreachable there. -/
def pyStr : PyVal → String
  | PyVal.s str => str
  | PyVal.i n => toString n
  | PyVal.f q => toString q

/-- `CSVToSQLiteIngester.detect_sqlite_type` (lines 47-90), translated
branch for branch: integral dtype, float dtype, datetime dtype, bool
dtype, then the object branch, which tries `pd.to_numeric` on the first
non-absent sample (substituting the literal `"0"` when the column has no
non-absent sample) and, on failure, tries the two fixed date formats
before defaulting; every remaining dtype falls to `TEXT`. -/
def detect_sqlite_type (dtype : DtypeKind) (sample_values : List Cellv) : String :=
  if dtype = DtypeKind.tInt then "INTEGER"
  else if dtype = DtypeKind.tFloat then "REAL"
  else if dtype = DtypeKind.tDatetime then "TEXT"
  else if dtype = DtypeKind.tBool then "INTEGER"
  else if dtype = DtypeKind.tObject then
    let nonNull := dropna sample_values
    let firstSample : PyVal :=
      match nonNull.head? with
      | some v => v
      | none => PyVal.s "0"
    if pyToNumericOk firstSample then "REAL"
    else
      match nonNull.head? with
      | some v =>
        let sample := pyStr v
        if strptimeYmd sample then "TEXT"
        else if strptimeYmdHMS sample then "TEXT"
        else "TEXT"
      | none => "TEXT"
  else "TEXT"

/-- The first-match decision order exactly as the specification words it:
integral gives INTEGER; else float gives REAL; else boolean gives INTEGER;
else datetime gives TEXT; else, for free text, the first non-absent sample
is tried as a number (REAL) and then as one of the two fixed date formats
(TEXT), and otherwise — in particular when there is no non-absent sample
to try — TEXT by default. -/
def specFirstMatch (dtype : DtypeKind) (sample_values : List Cellv) : String :=
  if dtype = DtypeKind.tInt then "INTEGER"
  else if dtype = DtypeKind.tFloat then "REAL"
  else if dtype = DtypeKind.tBool then "INTEGER"
  else if dtype = DtypeKind.tDatetime then "TEXT"
  else if dtype = DtypeKind.tObject then
    match (dropna sample_values).head? with
    | some v =>
      if pyToNumericOk v then "REAL"
      else if strptimeYmd (pyStr v) then "TEXT"
      else if strptimeYmdHMS (pyStr v) then "TEXT"
      else "TEXT"
    | none => "TEXT"
  else "TEXT"

/-- The specification's decision order amended at its one divergence from
the code: an object column with no non-absent sample is classified REAL,
because the code substitutes the literal `"0"`, which parses as numeric. -/
def specFirstMatchAmended (dtype : DtypeKind) (sample_values : List Cellv) : String :=
  if dtype = DtypeKind.tInt then "INTEGER"
  else if dtype = DtypeKind.tFloat then "REAL"
  else if dtype = DtypeKind.tBool then "INTEGER"
  else if dtype = DtypeKind.tDatetime then "TEXT"
  else if dtype = DtypeKind.tObject then
    match (dropna sample_values).head? with
    | some v =>
      if pyToNumericOk v then "REAL"
      else if strptimeYmd (pyStr v) then "TEXT"
      else if strptimeYmdHMS (pyStr v) then "TEXT"
      else "TEXT"
    | none => "REAL"
  else "TEXT"

/-- Python's `",\n".join`: empty for no pieces, the piece itself for one,
and the pieces interleaved with the separator otherwise. -/
def joinWith (sep : String) : List String → String
  | [] => ""
  | [x] => x
  | x :: y :: xs => x ++ sep ++ joinWith sep (y :: xs)

/-- One column definition of the generated DDL (lines 109-117): quoted
name, detected storage type, and `PRIMARY KEY NOT NULL` appended when the
column is the designated primary key. -/
def colDef (primary_key : Option String) (c : Column) : String :=
  let dtype := detect_sqlite_type c.dtype c.cells
  let d := "\"" ++ c.name ++ "\" " ++ dtype
  if primary_key = some c.name then d ++ " PRIMARY KEY NOT NULL" else d

/-- One `FOREIGN KEY` clause for a (column, referenced table, referenced
column) triple, as emitted on line 125. -/
def fkClause (fk : String × String × String) : String :=
  "FOREIGN KEY (\"" ++ fk.1 ++ "\") REFERENCES " ++ fk.2.1 ++ "(\"" ++ fk.2.2 ++ "\")"

/-- `CSVToSQLiteIngester.create_table_schema` (lines 92-129): the column
definitions are collected over `df.columns` in order and joined; each
foreign-key triple then appends a trailing clause (an absent or empty
triple list appends nothing, matching `if foreign_keys:`). -/
def create_table_schema (df : List Column) (table_name : String)
    (primary_key : Option String)
    (foreign_keys : Option (List (String × String × String))) : String :=
  let columns := df.map (colDef primary_key)
  let s1 := "CREATE TABLE IF NOT EXISTS " ++ table_name ++ " (\n"
  let s2 := s1 ++ joinWith ",\n" (columns.map (fun c => "    " ++ c))
  let s3 :=
    match foreign_keys with
    | some fks =>
      fks.foldl (fun acc fk => acc ++ ",\n    " ++ fkClause fk) s2
    | none => s2
  s3 ++ "\n);"

/-- The specification's reading of the statement: a single comma-joined
body whose items are the column definitions in source order followed by
one `FOREIGN KEY` clause per supplied triple. -/
def createTableSchemaSpec (df : List Column) (table_name : String)
    (primary_key : Option String)
    (foreign_keys : Option (List (String × String × String))) : String :=
  let fks :=
    match foreign_keys with
    | some l => l
    | none => []
  "CREATE TABLE IF NOT EXISTS " ++ table_name ++ " (\n" ++
    joinWith ",\n"
      (df.map (fun c => "    " ++ colDef primary_key c) ++
        fks.map (fun fk => "    " ++ fkClause fk)) ++
    "\n);"

/-- Contents of one stored table: the DDL it was created with and its rows
(each row a tuple of bound parameters, `none` standing for SQL NULL). -/
abbrev TableData : Type := String × List (List (Option PyVal))

/-- The relational store's table catalog. -/
abbrev DBState : Type := String → Option TableData

/-- `DROP TABLE IF EXISTS t` (line 184). -/
def dropTable (db : DBState) (t : String) : DBState :=
  fun n => if n = t then none else db n

/-- Executing the generated CREATE statement (line 188): the table exists
afterwards with its schema and no rows. -/
def createTable (db : DBState) (t : String) (schema : String) : DBState :=
  fun n => if n = t then some (schema, []) else db n

/-- A successful `INSERT` appends the bound row to the table. -/
def insertRow (db : DBState) (t : String) (row : List (Option PyVal)) : DBState :=
  fun n =>
    if n = t then (db t).map (fun td => (td.1, td.2 ++ [row]))
    else db n

/-- A connection: the last committed catalog and the working (uncommitted)
catalog the cursor's statements act on. -/
structure Conn where
  committed : DBState
  working : DBState

/-- `conn.commit()` (line 227): the working state becomes durable. -/
def commitConn (c : Conn) : Conn := ⟨c.working, c.working⟩

/-- `conn.rollback()` (lines 238, 241): the working state is discarded and
reset to the last committed state. -/
def rollbackConn (c : Conn) : Conn := ⟨c.committed, c.committed⟩

/-- `self.ingestion_stats`: table name to rows successfully inserted. -/
abbrev Stats : Type := String → Option ℕ

/-- `self.ingestion_stats[table_name] = rows_inserted` (line 230). -/
def setStat (st : Stats) (t : String) (n : ℕ) : Stats :=
  fun k => if k = t then some n else st k

/-- Lines 214-219: each value of the row is bound as-is, except that an
absent value (`pd.isna`) is bound as NULL. -/
def normalizeRow (row : List Cellv) : List (Option PyVal) :=
  row.map (fun c =>
    match c with
    | Cellv.na => none
    | Cellv.val v => some v)

/-- The per-row insert loop (lines 210-226).  `accept` is the store's
verdict on executing the INSERT against the current working state — the
constraint and affinity checking happens inside SQLite, outside this
repository, so it is a parameter.  A rejected row is recorded in the log
as `(idx + 1, row_values)` (the code prints exactly these) and skipped;
the loop then continues, and the first component of the numeric result is
`rows_inserted`. -/
def insertLoopAux (accept : DBState → String → List (Option PyVal) → Bool)
    (t : String) (db : DBState) (rows : List (List Cellv)) (idx : ℕ) :
    DBState × ℕ × List (ℕ × List (Option PyVal)) :=
  match rows with
  | [] => (db, 0, [])
  | row :: rest =>
    let rv := normalizeRow row
    if accept db t rv then
      let r := insertLoopAux accept t (insertRow db t rv) rest (idx + 1)
      (r.1, r.2.1 + 1, r.2.2)
    else
      let r := insertLoopAux accept t db rest (idx + 1)
      (r.1, r.2.1, (idx + 1, rv) :: r.2.2)

/-- What reading the entry's source can yield: the path does not exist
(`os.path.exists` is false, line 165), `pd.read_csv` raises
`EmptyDataError` or `ParserError`, or a dataframe is produced. -/
inductive FileState where
  | missing
  | emptyData
  | parseError
  | ok (df : List Column)

/-- The errors `ingest_csv` can raise to its caller. -/
inductive IngestErr where
  | fileNotFound
  | valueErrorEmpty
  | valueErrorParse
  | dbError
  deriving DecidableEq

/-- Statement boundaries outside the per-row `try` at which the store can
raise `sqlite3.Error`: during the DROP, during the CREATE, or at the
commit. -/
inductive FaultPoint where
  | atDrop
  | atCreate
  | atCommit
  deriving DecidableEq

/-- Number of rows of a dataframe given column-wise. -/
def nRows (df : List Column) : ℕ :=
  match df with
  | [] => 0
  | c :: _ => c.cells.length

/-- `df.iterrows()`: the rows of the dataframe, each the tuple of its
columns' cells at that index. -/
def rowsOf (df : List Column) : List (List Cellv) :=
  (List.range (nRows df)).map (fun i => df.map (fun c => c.cells.getD i Cellv.na))

/-- `CSVToSQLiteIngester.ingest_csv` (lines 148-242).  The missing-path
check raises before the `try` and therefore before any store statement;
`EmptyDataError`/`ParserError` are re-raised as `ValueError` without a
rollback (nothing has been executed yet); otherwise the table is dropped
and recreated, the rows are inserted one by one with per-row error
containment, and the transaction is committed and the count returned.  A
store-level fault at any injected boundary rolls the working state back to
the last commit and re-raises.  Index creation (lines 191-194) is not
modelled: its failures are swallowed and indexes never change any table's
rows. -/
def ingest_csv (fs : String → FileState)
    (accept : DBState → String → List (Option PyVal) → Bool)
    (fault : Option FaultPoint)
    (conn : Conn) (stats : Stats)
    (csv_path table_name : String)
    (primary_key : Option String)
    (foreign_keys : Option (List (String × String × String))) :
    Conn × Stats × Except IngestErr ℕ :=
  match fs csv_path with
  | FileState.missing => (conn, stats, Except.error IngestErr.fileNotFound)
  | FileState.emptyData => (conn, stats, Except.error IngestErr.valueErrorEmpty)
  | FileState.parseError => (conn, stats, Except.error IngestErr.valueErrorParse)
  | FileState.ok df =>
    let create_sql := create_table_schema df table_name primary_key foreign_keys
    if fault = some FaultPoint.atDrop then
      (rollbackConn conn, stats, Except.error IngestErr.dbError)
    else
      let w1 := dropTable conn.working table_name
      if fault = some FaultPoint.atCreate then
        (rollbackConn ⟨conn.committed, w1⟩, stats, Except.error IngestErr.dbError)
      else
        let w2 := createTable w1 table_name create_sql
        let res := insertLoopAux accept table_name w2 (rowsOf df) 0
        if fault = some FaultPoint.atCommit then
          (rollbackConn ⟨conn.committed, res.1⟩, stats, Except.error IngestErr.dbError)
        else
          let conn2 := commitConn ⟨conn.committed, res.1⟩
          (conn2, setStat stats table_name res.2.1, Except.ok res.2.1)

/-- One entry of the ingestion plan (`ingestion_config`, lines 350-389). -/
structure EntrySpec where
  csv : String
  table : String
  primary_key : Option String
  foreign_keys : Option (List (String × String × String))

/-- The `main` loop over the plan (lines 392-399 with the handlers at
407-417): entries are processed in order; the first error raised by
`ingest_csv` is caught and the process exits with status 1; a clean run
exits with status 0. -/
def runEntries (fs : String → FileState)
    (accept : DBState → String → List (Option PyVal) → Bool)
    (conn : Conn) (stats : Stats) : List EntrySpec → Conn × Stats × ℕ
  | [] => (conn, stats, 0)
  | e :: rest =>
    match ingest_csv fs accept none conn stats e.csv e.table e.primary_key e.foreign_keys with
    | (c2, s2, Except.ok _) => runEntries fs accept c2 s2 rest
    | (c2, s2, Except.error _) => (c2, s2, 1)

/-- The dataframe `pd.read_csv` produces for the specification's concrete
3-row scenario: `id` is integral; `name` is object text; `price` is object
because of the non-numeric entry, with the empty field read as absent. -/
def dfScenario : List Column :=
  [⟨"id", DtypeKind.tInt,
     [Cellv.val (PyVal.i 1), Cellv.val (PyVal.i 2), Cellv.val (PyVal.i 3)]⟩,
   ⟨"name", DtypeKind.tObject,
     [Cellv.val (PyVal.s "A"), Cellv.val (PyVal.s "B"), Cellv.val (PyVal.s "C")]⟩,
   ⟨"price", DtypeKind.tObject,
     [Cellv.val (PyVal.s "9.99"), Cellv.val (PyVal.s "bad"), Cellv.na]⟩]

/-- File system holding exactly the scenario source. -/
def fsScenario (p : String) : FileState :=
  if p = "products.csv" then FileState.ok dfScenario else FileState.missing

/-- The store verdict stipulated by the scenario: a row whose `price`
binding (third position) is non-numeric text violates the REAL column and
is rejected; every other row is accepted. -/
def acceptScenario (_db : DBState) (_t : String) (row : List (Option PyVal)) : Bool :=
  match row.getD 2 none with
  | some (PyVal.s str) => parsesAsNumber str
  | _ => true

/-- A NOT NULL / primary-key verdict: a row whose first binding is NULL is
rejected. -/
def acceptNotNull (_db : DBState) (_t : String) (row : List (Option PyVal)) : Bool :=
  match row.head? with
  | some (some _) => true
  | _ => false

/-- The empty catalog. -/
def dbEmpty : DBState := fun _ => none

/-- A fresh connection over the empty catalog. -/
def connEmpty : Conn := ⟨dbEmpty, dbEmpty⟩

/-- No statistics recorded yet. -/
def statsEmpty : Stats := fun _ => none

/-- A 3-row source (single `id` column) whose second row is absent in the
primary-key column — the one-bad-row source of the claim. -/
def rowsOneBad : List (List Cellv) :=
  [[Cellv.val (PyVal.i 1)], [Cellv.na], [Cellv.val (PyVal.i 2)]]

/-- A file system with no sources at all. -/
def fsNone (_p : String) : FileState := FileState.missing

/-- The string the foreign-key `foldl` of `create_table_schema` appends
after the joined column definitions: one `,\n    FOREIGN KEY ...` piece
per triple, in order. -/
def fkTail : List (String × String × String) → String
  | [] => ""
  | fk :: l => ",\n    " ++ fkClause fk ++ fkTail l

theorem detect_obj (vs : List Cellv) :
    detect_sqlite_type DtypeKind.tObject vs =
      (if pyToNumericOk
            (match (dropna vs).head? with
             | some v => v
             | none => PyVal.s "0") then "REAL"
       else
         match (dropna vs).head? with
         | some v =>
           if strptimeYmd (pyStr v) then "TEXT"
           else if strptimeYmdHMS (pyStr v) then "TEXT"
           else "TEXT"
         | none => "TEXT") := rfl

theorem specAmended_obj (vs : List Cellv) :
    specFirstMatchAmended DtypeKind.tObject vs =
      (match (dropna vs).head? with
       | some v =>
         if pyToNumericOk v then "REAL"
         else if strptimeYmd (pyStr v) then "TEXT"
         else if strptimeYmdHMS (pyStr v) then "TEXT"
         else "TEXT"
       | none => "REAL") := rfl

theorem detect_eq_specAmended (d : DtypeKind) (vs : List Cellv) :
    detect_sqlite_type d vs = specFirstMatchAmended d vs := by
  cases d
  case tInt => rfl
  case tFloat => rfl
  case tBool => rfl
  case tDatetime => rfl
  case tOther => rfl
  case tObject =>
    rw [detect_obj, specAmended_obj]
    cases h : (dropna vs).head? with
    | none =>
      simp only [h]
      have h0 : pyToNumericOk (PyVal.s "0") = true := by decide
      rw [h0]
      simp
    | some v =>
      simp only [h]

theorem specAmended_mem (d : DtypeKind) (vs : List Cellv) :
    specFirstMatchAmended d vs = "INTEGER" ∨ specFirstMatchAmended d vs = "REAL" ∨
      specFirstMatchAmended d vs = "TEXT" := by
  cases d
  case tInt => exact Or.inl rfl
  case tFloat => exact Or.inr (Or.inl rfl)
  case tBool => exact Or.inl rfl
  case tDatetime => exact Or.inr (Or.inr rfl)
  case tOther => exact Or.inr (Or.inr rfl)
  case tObject =>
    rw [specAmended_obj]
    cases h : (dropna vs).head? with
    | none => exact Or.inr (Or.inl rfl)
    | some v =>
      by_cases hn : pyToNumericOk v = true
      · simp [hn]
      · simp only [Bool.not_eq_true] at hn
        simp [hn, ite_self]

/-- Claim C1 counterexample: on an object column with no non-absent sample
the code substitutes `"0"`, which parses as numeric, and returns REAL,
whereas the specification's first-match decision order — nothing to try as
a number or date, so TEXT by default — gives TEXT; the claimed equality of
`detect_sqlite_type` with the spec's decision order therefore fails at
this concrete column. -/
theorem claim_C1_counterexample :
    detect_sqlite_type DtypeKind.tObject [Cellv.na] = "REAL" ∧
    specFirstMatch DtypeKind.tObject [Cellv.na] = "TEXT" ∧
    ("REAL" : String) ≠ "TEXT" :=
  ⟨by decide, by decide, by decide⟩

/-- Claim C1 (amended): `detect_sqlite_type` is total, returns exactly one
of INTEGER, REAL, TEXT, and equals the specification's first-match
decision order amended at one point: an object column with no non-absent
sample is classified REAL (the code tries the substituted literal `"0"`,
which parses as numeric) instead of falling to the TEXT default. -/
theorem claim_C1 (d : DtypeKind) (vs : List Cellv) :
    (detect_sqlite_type d vs = "INTEGER" ∨ detect_sqlite_type d vs = "REAL" ∨
      detect_sqlite_type d vs = "TEXT") ∧
    detect_sqlite_type d vs = specFirstMatchAmended d vs := by
  refine ⟨?_, detect_eq_specAmended d vs⟩
  rw [detect_eq_specAmended d vs]
  exact specAmended_mem d vs

/-- Claim C3 counterexample: a column whose every non-absent value parses
as an integer but is represented as text (object dtype) is classified
REAL, not INTEGER — the object branch returns REAL whenever
`pd.to_numeric` succeeds on the sample, with no integer distinction. -/
theorem claim_C3_counterexample :
    detect_sqlite_type DtypeKind.tObject [Cellv.val (PyVal.s "7")] = "REAL" ∧
    ("REAL" : String) ≠ "INTEGER" :=
  ⟨by decide, by decide⟩

/-- Claim C3 (amended): a column of integral dtype is classified INTEGER,
for any sample values; but an integer-valued column represented as text
(object dtype, first non-absent sample numeric) is classified REAL, the
"numeric-as-text" outcome, not INTEGER. -/
theorem claim_C3 :
    (∀ vs : List Cellv, detect_sqlite_type DtypeKind.tInt vs = "INTEGER") ∧
    (∀ (vs : List Cellv) (v : PyVal), (dropna vs).head? = some v →
      pyToNumericOk v = true →
      detect_sqlite_type DtypeKind.tObject vs = "REAL") := by
  refine ⟨fun vs => rfl, fun vs v hv hn => ?_⟩
  rw [detect_obj]
  simp only [hv, hn, if_true]

/-- Claim C3 witness: the single-sample text column `["7"]` — every
non-absent value parses as an integer — is classified REAL by the amended
claim's object-branch clause. -/
theorem claim_C3_witness :
    detect_sqlite_type DtypeKind.tObject [Cellv.val (PyVal.s "7")] = "REAL" :=
  claim_C3.2 [Cellv.val (PyVal.s "7")] (PyVal.s "7") rfl (by decide)

/-- Claim C7: a text column routed through date-string detection (object
dtype, first non-absent sample not numeric) is stored as TEXT whatever the
sample looks like; both fixed formats `YYYY-MM-DD` and
`YYYY-MM-DD HH:MM:SS` are recognized by the format matchers, and samples
in any other date format fall through to the same TEXT result. -/
theorem claim_C7 :
    (∀ (vs : List Cellv) (v : PyVal), (dropna vs).head? = some v →
      pyToNumericOk v = false →
      detect_sqlite_type DtypeKind.tObject vs = "TEXT") ∧
    strptimeYmd "2024-01-15" = true ∧
    strptimeYmdHMS "2024-01-15 10:30:00" = true ∧
    strptimeYmd "15/01/2024" = false ∧
    strptimeYmdHMS "15/01/2024 10:30:00" = false := by
  refine ⟨fun vs v hv hn => ?_, by decide, by decide, by decide, by decide⟩
  rw [detect_obj]
  simp only [hv, hn]
  simp [ite_self]

/-- Claim C7 witness: a column whose first non-absent sample is the date
string `2024-01-15` (not numeric) is classified TEXT. -/
theorem claim_C7_witness :
    detect_sqlite_type DtypeKind.tObject [Cellv.val (PyVal.s "2024-01-15")] = "TEXT" :=
  claim_C7.1 [Cellv.val (PyVal.s "2024-01-15")] (PyVal.s "2024-01-15") rfl (by decide)

/-- Claim C10: an object column with no non-absent value at all is
classified REAL — the fallback substitutes the literal `"0"`, which parses
as numeric — and not the TEXT default. -/
theorem claim_C10 (vs : List Cellv) (h : dropna vs = []) :
    detect_sqlite_type DtypeKind.tObject vs = "REAL" := by
  rw [detect_obj, h]
  decide

/-- Claim C10 witness: a column consisting of one absent cell. -/
theorem claim_C10_witness :
    detect_sqlite_type DtypeKind.tObject [Cellv.na] = "REAL" :=
  claim_C10 [Cellv.na] rfl

theorem insertLoop_count (accept : DBState → String → List (Option PyVal) → Bool)
    (t : String) (rows : List (List Cellv)) :
    ∀ (db : DBState) (idx : ℕ),
      (insertLoopAux accept t db rows idx).2.1 +
        (insertLoopAux accept t db rows idx).2.2.length = rows.length := by
  induction rows with
  | nil => intro db idx; rfl
  | cons row rest ih =>
    intro db idx
    cases h : accept db t (normalizeRow row) with
    | true =>
      simp only [insertLoopAux, h, if_true, List.length_cons]
      have := ih (insertRow db t (normalizeRow row)) (idx + 1)
      omega
    | false =>
      simp only [insertLoopAux, h, Bool.false_eq_true, if_false, List.length_cons]
      have := ih db (idx + 1)
      omega

theorem insertLoop_log (accept : DBState → String → List (Option PyVal) → Bool)
    (t : String) (rows : List (List Cellv)) :
    ∀ (db : DBState) (idx : ℕ) (p : ℕ) (rv : List (Option PyVal)),
      (p, rv) ∈ (insertLoopAux accept t db rows idx).2.2 →
      ∃ k, k < rows.length ∧ p = idx + k + 1 ∧ rv = normalizeRow (rows.getD k []) := by
  induction rows with
  | nil => intro db idx p rv h; simp [insertLoopAux] at h
  | cons row rest ih =>
    intro db idx p rv h
    cases ha : accept db t (normalizeRow row) with
    | true =>
      simp only [insertLoopAux, ha, if_true] at h
      obtain ⟨k, hk, hp, hrv⟩ := ih (insertRow db t (normalizeRow row)) (idx + 1) p rv h
      exact ⟨k + 1, by simpa using Nat.succ_lt_succ hk, by omega, by simpa using hrv⟩
    | false =>
      simp only [insertLoopAux, ha, Bool.false_eq_true, if_false, List.mem_cons] at h
      rcases h with h | h
      · rw [Prod.mk.injEq] at h
        exact ⟨0, Nat.succ_pos _, by omega, by simp [h.2]⟩
      · obtain ⟨k, hk, hp, hrv⟩ := ih db (idx + 1) p rv h
        exact ⟨k + 1, by simpa using Nat.succ_lt_succ hk, by omega, by simpa using hrv⟩

theorem insertLoop_other (accept : DBState → String → List (Option PyVal) → Bool)
    (t : String) (rows : List (List Cellv)) :
    ∀ (db : DBState) (idx : ℕ) (n : String), n ≠ t →
      (insertLoopAux accept t db rows idx).1 n = db n := by
  induction rows with
  | nil => intro db idx n _; rfl
  | cons row rest ih =>
    intro db idx n hn
    cases ha : accept db t (normalizeRow row) with
    | true =>
      simp only [insertLoopAux, ha, if_true]
      rw [ih (insertRow db t (normalizeRow row)) (idx + 1) n hn]
      simp [insertRow, hn]
    | false =>
      simp only [insertLoopAux, ha, Bool.false_eq_true, if_false]
      exact ih db (idx + 1) n hn

/-- Claim C2: in the row-loading loop each row is attempted independently;
the successful inserts and the logged-and-skipped rows partition the
source (count + skipped = N), every skipped row is logged with its 1-based
position and its bound contents, a source with exactly one rejected row
yields N-1 inserted rows, and `ingest_csv` (on a readable source and no
store-level fault) returns exactly the loop's success count. -/
theorem claim_C2 (accept : DBState → String → List (Option PyVal) → Bool)
    (t : String) (db : DBState) (rows : List (List Cellv)) :
    ((insertLoopAux accept t db rows 0).2.1 +
        (insertLoopAux accept t db rows 0).2.2.length = rows.length) ∧
    (∀ (p : ℕ) (rv : List (Option PyVal)),
        (p, rv) ∈ (insertLoopAux accept t db rows 0).2.2 →
        ∃ k, k < rows.length ∧ p = k + 1 ∧ rv = normalizeRow (rows.getD k [])) ∧
    ((insertLoopAux accept t db rows 0).2.2.length = 1 →
        (insertLoopAux accept t db rows 0).2.1 = rows.length - 1) ∧
    (∀ (fs : String → FileState) (conn : Conn) (stats : Stats) (path : String)
        (pk : Option String) (fks : Option (List (String × String × String)))
        (df : List Column), fs path = FileState.ok df →
        (ingest_csv fs accept none conn stats path t pk fks).2.2 =
          Except.ok (insertLoopAux accept t
            (createTable (dropTable conn.working t) t (create_table_schema df t pk fks))
            (rowsOf df) 0).2.1) := by
  refine ⟨insertLoop_count accept t rows db 0, ?_, ?_, ?_⟩
  · intro p rv h
    obtain ⟨k, hk, hp, hrv⟩ := insertLoop_log accept t rows db 0 p rv h
    exact ⟨k, hk, by omega, hrv⟩
  · intro h1
    have := insertLoop_count accept t rows db 0
    omega
  · intro fs conn stats path pk fks df h
    simp [ingest_csv, h]

/-- Claim C2 witness: the 3-row single-column source whose second row is
absent in the NOT NULL primary-key column yields 3 - 1 = 2 inserted rows
under the NOT NULL verdict. -/
theorem claim_C2_witness :
    (insertLoopAux acceptNotNull "T" (createTable dbEmpty "T" "s") rowsOneBad 0).2.1 =
      rowsOneBad.length - 1 :=
  (claim_C2 acceptNotNull "T" (createTable dbEmpty "T" "s") rowsOneBad).2.2.1 (by decide)

/-- Claim C4: whatever statement boundary outside the per-row `try` the
store-level fault strikes at (the DROP, the CREATE or the commit), the
pending transaction is rolled back in full — both views of the connection
equal the state at the last commit boundary — and the error is re-raised
to the caller. -/
theorem claim_C4 (fp : FaultPoint) (fs : String → FileState)
    (accept : DBState → String → List (Option PyVal) → Bool)
    (conn : Conn) (stats : Stats) (path t : String) (pk : Option String)
    (fks : Option (List (String × String × String))) (df : List Column)
    (h : fs path = FileState.ok df) :
    (ingest_csv fs accept (some fp) conn stats path t pk fks).1.working =
      conn.committed ∧
    (ingest_csv fs accept (some fp) conn stats path t pk fks).1.committed =
      conn.committed ∧
    (ingest_csv fs accept (some fp) conn stats path t pk fks).2.2 =
      Except.error IngestErr.dbError := by
  cases fp <;> simp [ingest_csv, h, rollbackConn]

/-- Claim C4 witness: a fault at the commit of the concrete scenario
ingestion is rolled back to the fresh connection's committed state and
surfaces as a database error. -/
theorem claim_C4_witness :
    (ingest_csv fsScenario acceptScenario (some FaultPoint.atCommit) connEmpty
        statsEmpty "products.csv" "Products" (some "id") none).1.working =
      connEmpty.committed ∧
    (ingest_csv fsScenario acceptScenario (some FaultPoint.atCommit) connEmpty
        statsEmpty "products.csv" "Products" (some "id") none).1.committed =
      connEmpty.committed ∧
    (ingest_csv fsScenario acceptScenario (some FaultPoint.atCommit) connEmpty
        statsEmpty "products.csv" "Products" (some "id") none).2.2 =
      Except.error IngestErr.dbError :=
  claim_C4 FaultPoint.atCommit fsScenario acceptScenario connEmpty statsEmpty
    "products.csv" "Products" (some "id") none dfScenario rfl

/-- Claim C9: an ingestion entry whose source path does not exist raises
before any store statement — the connection and statistics are returned
exactly as they were, with no drop, create or insert — and the run's main
loop stops at that entry with exit status 1. -/
theorem claim_C9 (fs : String → FileState)
    (accept : DBState → String → List (Option PyVal) → Bool)
    (conn : Conn) (stats : Stats) (e : EntrySpec) (rest : List EntrySpec)
    (h : fs e.csv = FileState.missing) :
    ingest_csv fs accept none conn stats e.csv e.table e.primary_key e.foreign_keys =
      (conn, stats, Except.error IngestErr.fileNotFound) ∧
    runEntries fs accept conn stats (e :: rest) = (conn, stats, 1) := by
  have h1 : ingest_csv fs accept none conn stats e.csv e.table e.primary_key
      e.foreign_keys = (conn, stats, Except.error IngestErr.fileNotFound) := by
    simp [ingest_csv, h]
  refine ⟨h1, ?_⟩
  simp only [runEntries, h1]

/-- Claim C9 witness: a plan whose first entry names a nonexistent source
leaves the fresh connection untouched and exits with status 1. -/
theorem claim_C9_witness :
    ingest_csv fsNone acceptNotNull none connEmpty statsEmpty "Customers.csv"
        "Customers" (some "customer_id") none =
      (connEmpty, statsEmpty, Except.error IngestErr.fileNotFound) ∧
    runEntries fsNone acceptNotNull connEmpty statsEmpty
        [⟨"Customers.csv", "Customers", some "customer_id", none⟩] =
      (connEmpty, statsEmpty, 1) :=
  claim_C9 fsNone acceptNotNull connEmpty statsEmpty
    ⟨"Customers.csv", "Customers", some "customer_id", none⟩ [] rfl

theorem ingest_ok (fs : String → FileState)
    (accept : DBState → String → List (Option PyVal) → Bool)
    (conn : Conn) (stats : Stats) (path t : String) (pk : Option String)
    (fks : Option (List (String × String × String))) (df : List Column)
    (h : fs path = FileState.ok df) :
    ingest_csv fs accept none conn stats path t pk fks =
      (⟨(insertLoopAux accept t (createTable (dropTable conn.working t) t
            (create_table_schema df t pk fks)) (rowsOf df) 0).1,
        (insertLoopAux accept t (createTable (dropTable conn.working t) t
            (create_table_schema df t pk fks)) (rowsOf df) 0).1⟩,
       setStat stats t (insertLoopAux accept t (createTable (dropTable conn.working t) t
            (create_table_schema df t pk fks)) (rowsOf df) 0).2.1,
       Except.ok (insertLoopAux accept t (createTable (dropTable conn.working t) t
            (create_table_schema df t pk fks)) (rowsOf df) 0).2.1) := by
  simp [ingest_csv, h, commitConn]

/-- Claim C5: re-running `ingest_csv` for the same entry on an unchanged
source reproduces the same end state — the same returned result (hence the
same inserted-row count) and the same target table contents, because the
table is dropped and recreated on each run and no other table is touched. -/
theorem claim_C5 (fs : String → FileState)
    (accept : DBState → String → List (Option PyVal) → Bool)
    (conn : Conn) (stats : Stats) (path t : String) (pk : Option String)
    (fks : Option (List (String × String × String))) (df : List Column)
    (h : fs path = FileState.ok df) :
    (ingest_csv fs accept none conn stats path t pk fks).2.2 =
      (ingest_csv fs accept none
        (ingest_csv fs accept none conn stats path t pk fks).1
        (ingest_csv fs accept none conn stats path t pk fks).2.1
        path t pk fks).2.2 ∧
    (ingest_csv fs accept none conn stats path t pk fks).1.working t =
      (ingest_csv fs accept none
        (ingest_csv fs accept none conn stats path t pk fks).1
        (ingest_csv fs accept none conn stats path t pk fks).2.1
        path t pk fks).1.working t := by
  have e1 := ingest_ok fs accept conn stats path t pk fks df h
  have e2 := ingest_ok fs accept
    (ingest_csv fs accept none conn stats path t pk fks).1
    (ingest_csv fs accept none conn stats path t pk fks).2.1 path t pk fks df h
  rw [e1] at e2
  dsimp only at e2
  have hD : createTable (dropTable (insertLoopAux accept t
        (createTable (dropTable conn.working t) t (create_table_schema df t pk fks))
        (rowsOf df) 0).1 t) t (create_table_schema df t pk fks) =
      createTable (dropTable conn.working t) t (create_table_schema df t pk fks) := by
    funext n
    by_cases hn : n = t
    · subst hn; simp [createTable]
    · simp only [createTable, dropTable, if_neg hn]
      rw [insertLoop_other accept t (rowsOf df) _ 0 n hn]
      simp [createTable, dropTable, hn]
  rw [hD] at e2
  rw [e1, e2]
  exact ⟨rfl, rfl⟩

/-- Claim C5 witness: ingesting the concrete scenario source twice in a
row returns the same result and leaves the same Products table both
times. -/
theorem claim_C5_witness :
    (ingest_csv fsScenario acceptScenario none connEmpty statsEmpty
        "products.csv" "Products" (some "id") none).2.2 =
      (ingest_csv fsScenario acceptScenario none
        (ingest_csv fsScenario acceptScenario none connEmpty statsEmpty
          "products.csv" "Products" (some "id") none).1
        (ingest_csv fsScenario acceptScenario none connEmpty statsEmpty
          "products.csv" "Products" (some "id") none).2.1
        "products.csv" "Products" (some "id") none).2.2 ∧
    (ingest_csv fsScenario acceptScenario none connEmpty statsEmpty
        "products.csv" "Products" (some "id") none).1.working "Products" =
      (ingest_csv fsScenario acceptScenario none
        (ingest_csv fsScenario acceptScenario none connEmpty statsEmpty
          "products.csv" "Products" (some "id") none).1
        (ingest_csv fsScenario acceptScenario none connEmpty statsEmpty
          "products.csv" "Products" (some "id") none).2.1
        "products.csv" "Products" (some "id") none).1.working "Products" :=
  claim_C5 fsScenario acceptScenario connEmpty statsEmpty "products.csv"
    "Products" (some "id") none dfScenario rfl

theorem fold_fk (l : List (String × String × String)) :
    ∀ s : String,
      l.foldl (fun acc fk => acc ++ ",\n    " ++ fkClause fk) s = s ++ fkTail l := by
  induction l with
  | nil => intro s; exact (String.append_empty s).symm
  | cons fk l ih =>
    intro s
    simp only [List.foldl_cons, fkTail, ih]
    simp [String.append_assoc]

theorem join_pre (fk : String × String × String)
    (l : List (String × String × String)) :
    ",\n" ++ joinWith ",\n"
        (("    " ++ fkClause fk) :: l.map (fun g => "    " ++ fkClause g)) =
      fkTail (fk :: l) := by
  induction l generalizing fk with
  | nil =>
    show (",\n" : String) ++ ("    " ++ fkClause fk) = ",\n    " ++ fkClause fk ++ fkTail []
    rw [← String.append_assoc]
    show (",\n    " : String) ++ fkClause fk = ",\n    " ++ fkClause fk ++ fkTail []
    rw [fkTail, String.append_empty]
  | cons g l ih =>
    show (",\n" : String) ++ (("    " ++ fkClause fk) ++ ",\n" ++
        joinWith ",\n" (("    " ++ fkClause g) :: l.map (fun g => "    " ++ fkClause g))) =
      ",\n    " ++ fkClause fk ++ fkTail (g :: l)
    rw [← ih g]
    have h1 : (",\n" : String) ++ "    " = ",\n    " := rfl
    simp only [← String.append_assoc, h1]

theorem join_fk (fkL : List (String × String × String)) :
    ∀ (x : String) (xs : List String),
      joinWith ",\n" ((x :: xs) ++ fkL.map (fun fk => "    " ++ fkClause fk)) =
        joinWith ",\n" (x :: xs) ++ fkTail fkL := by
  intro x xs
  induction xs generalizing x with
  | nil =>
    cases fkL with
    | nil => exact (String.append_empty x).symm
    | cons fk l =>
      show x ++ ",\n" ++ joinWith ",\n"
          (("    " ++ fkClause fk) :: l.map (fun g => "    " ++ fkClause g)) =
        x ++ fkTail (fk :: l)
      rw [← join_pre fk l, String.append_assoc]
  | cons y ys ih =>
    show x ++ ",\n" ++ joinWith ",\n" ((y :: ys) ++ fkL.map (fun fk => "    " ++ fkClause fk)) =
      (x ++ ",\n" ++ joinWith ",\n" (y :: ys)) ++ fkTail fkL
    rw [ih y]
    simp [String.append_assoc]

/-- Claim C6: for every nonempty source table, optional primary-key column
and optional foreign-key triples, the generated CREATE TABLE IF NOT EXISTS
statement equals the specification's reading — one joined body holding the
column definitions in the source table's column order followed by one
trailing FOREIGN KEY clause per supplied triple — and the designated
primary-key column's definition carries `PRIMARY KEY NOT NULL`. -/
theorem claim_C6 (df : List Column) (tn : String) (pk : Option String)
    (fks : Option (List (String × String × String))) (hdf : df ≠ []) :
    create_table_schema df tn pk fks = createTableSchemaSpec df tn pk fks ∧
    (∀ c ∈ df, pk = some c.name →
      colDef pk c = "\"" ++ c.name ++ "\" " ++ detect_sqlite_type c.dtype c.cells ++
        " PRIMARY KEY NOT NULL") := by
  constructor
  · obtain ⟨c, cs, rfl⟩ : ∃ c cs, df = c :: cs := by
      cases df with
      | nil => exact absurd rfl hdf
      | cons c cs => exact ⟨c, cs, rfl⟩
    simp only [create_table_schema, createTableSchemaSpec]
    cases fks with
    | none =>
      dsimp only
      simp [List.map_map, Function.comp_def]
    | some l =>
      dsimp only
      rw [fold_fk]
      simp only [List.map_map, List.map_cons]
      rw [join_fk l]
      simp [String.append_assoc, Function.comp_def]
  · intro c _ hpk
    simp [colDef, hpk]

/-- Claim C6 witness: the scenario table with a primary key and one
foreign-key triple generates exactly the specification-shaped statement. -/
theorem claim_C6_witness :
    create_table_schema dfScenario "Products" (some "id")
        (some [("id", "Other", "id")]) =
      createTableSchemaSpec dfScenario "Products" (some "id")
        (some [("id", "Other", "id")]) :=
  (claim_C6 dfScenario "Products" (some "id") (some [("id", "Other", "id")])
    (by exact List.cons_ne_nil _ _)).1

theorem insertLoop_rows (accept : DBState → String → List (Option PyVal) → Bool)
    (t : String) (rows : List (List Cellv)) :
    ∀ (db : DBState) (idx : ℕ) (sch : String) (rs0 : List (List (Option PyVal))),
      db t = some (sch, rs0) →
      ∃ sel : List (List Cellv), List.Sublist sel rows ∧
        (insertLoopAux accept t db rows idx).1 t =
          some (sch, rs0 ++ sel.map normalizeRow) := by
  induction rows with
  | nil =>
    intro db idx sch rs0 h
    exact ⟨[], List.Sublist.refl [], by simpa [insertLoopAux] using h⟩
  | cons row rest ih =>
    intro db idx sch rs0 h
    cases ha : accept db t (normalizeRow row) with
    | true =>
      have h2 : (insertRow db t (normalizeRow row)) t =
          some (sch, rs0 ++ [normalizeRow row]) := by
        simp [insertRow, h]
      obtain ⟨sel, hsub, hdb⟩ := ih (insertRow db t (normalizeRow row)) (idx + 1) sch
        (rs0 ++ [normalizeRow row]) h2
      refine ⟨row :: sel, List.Sublist.cons₂ row hsub, ?_⟩
      simp only [insertLoopAux, ha, if_true]
      rw [hdb]
      simp
    | false =>
      obtain ⟨sel, hsub, hdb⟩ := ih db (idx + 1) sch rs0 h
      refine ⟨sel, List.Sublist.cons row hsub, ?_⟩
      simp only [insertLoopAux, ha, Bool.false_eq_true, if_false]
      exact hdb

/-- Claim C8: every loaded row is bound with absent values normalized to
NULL and all other values passed through unmodified — the rows landing in
the table are exactly `normalizeRow` of a subsequence of the source rows —
and in the concrete 3-row scenario `price` is inferred REAL, row 1 is
inserted with the value 9.99 as read, row 2 (price `bad`) is rejected and
logged with its position and contents, row 3 is inserted with price NULL,
and the returned count is 2. -/
theorem claim_C8 :
    (∀ (accept : DBState → String → List (Option PyVal) → Bool) (t : String)
        (db : DBState) (rows : List (List Cellv)) (idx : ℕ) (sch : String)
        (rs0 : List (List (Option PyVal))), db t = some (sch, rs0) →
        ∃ sel : List (List Cellv), List.Sublist sel rows ∧
          (insertLoopAux accept t db rows idx).1 t =
            some (sch, rs0 ++ sel.map normalizeRow)) ∧
    detect_sqlite_type DtypeKind.tObject
      [Cellv.val (PyVal.s "9.99"), Cellv.val (PyVal.s "bad"), Cellv.na] = "REAL" ∧
    (ingest_csv fsScenario acceptScenario none connEmpty statsEmpty
        "products.csv" "Products" (some "id") none).2.2 = Except.ok 2 ∧
    (ingest_csv fsScenario acceptScenario none connEmpty statsEmpty
        "products.csv" "Products" (some "id") none).1.working "Products" =
      some (create_table_schema dfScenario "Products" (some "id") none,
        [[some (PyVal.i 1), some (PyVal.s "A"), some (PyVal.s "9.99")],
         [some (PyVal.i 3), some (PyVal.s "C"), none]]) ∧
    (insertLoopAux acceptScenario "Products"
        (createTable (dropTable connEmpty.working "Products") "Products"
          (create_table_schema dfScenario "Products" (some "id") none))
        (rowsOf dfScenario) 0).2.2 =
      [(2, [some (PyVal.i 2), some (PyVal.s "B"), some (PyVal.s "bad")])] := by
  refine ⟨fun accept t db rows idx sch rs0 h =>
    insertLoop_rows accept t rows db idx sch rs0 h, by decide, by rfl, by decide,
    by decide⟩

/-- Claim C8 witness: applying the NULL-normalization clause to the
one-bad-row source over a freshly created table. -/
theorem claim_C8_witness :
    ∃ sel : List (List Cellv), List.Sublist sel rowsOneBad ∧
      (insertLoopAux acceptNotNull "T" (createTable dbEmpty "T" "s")
          rowsOneBad 0).1 "T" =
        some ("s", [] ++ sel.map normalizeRow) :=
  claim_C8.1 acceptNotNull "T" (createTable dbEmpty "T" "s") rowsOneBad 0 "s" []
    rfl
